import Mathlib

/-!
Shallow embedding of the aimentor backend (FastAPI + Supabase) for
specification checking.  The database is modelled as lists of rows; the
supabase query builder calls `.eq(col, v)` / `.order` / `.limit` become
`List.filter` / a stable ascending sort / `List.take`; `.insert` appends a
row and `.update` maps over the rows matching the filter.  Route handlers
become pure functions threading the database state; an `HTTPException`
raised by a handler becomes an `Except.error` paired with the database as
it stood when the exception was raised (writes already executed persist).
The chat handler additionally records a trace of its store/ledger
operations so that ordering claims can be stated.
-/

namespace AiMentor

/-- `PlanType` enum from app/schemas/models.py. -/
inductive PlanType
  | free
  | monthly
  | annual
deriving DecidableEq, Repr

/-- `PlanType(plan_str)` : constructing the enum from a string raises
`ValueError` on any other string, modelled as `none`. -/
def PlanType.ofString : String → Option PlanType
  | "free" => some .free
  | "monthly" => some .monthly
  | "annual" => some .annual
  | _ => none

/-- `SubscriptionStatus` enum from app/schemas/models.py. -/
inductive SubscriptionStatus
  | active
  | canceled
  | expired
deriving DecidableEq, Repr

/-- A row of the `users` table (fields the core reads/writes). -/
structure UserRow where
  id : Nat
  plan : PlanType
  credits_left : Int
deriving DecidableEq, Repr

/-- A row of the `personas` table (fields the core reads). -/
structure PersonaRow where
  id : Nat
  name : String
  prompt_template : String
deriving DecidableEq, Repr

/-- A row of the `conversations` table. -/
structure ConversationRow where
  id : Nat
  user_id : Nat
  persona_id : Nat
  title : String
  created_at : Nat
  last_message_at : Nat
deriving DecidableEq, Repr

/-- A row of the `messages` table. -/
structure MessageRow where
  id : Nat
  user_id : Nat
  persona_id : Nat
  conversation_id : Nat
  content : String
  is_user : Bool
  created_at : Nat
deriving DecidableEq, Repr

/-- A row of the `subscriptions` table (also the `SubscriptionCreate`
payload built by the webhook reconciler; timestamps counted in days). -/
structure SubscriptionRow where
  user_id : Nat
  plan : PlanType
  payment_id : String
  status : SubscriptionStatus
  start_date : Nat
  end_date : Nat
deriving DecidableEq, Repr

/-- The relational store. -/
structure DB where
  users : List UserRow
  personas : List PersonaRow
  conversations : List ConversationRow
  messages : List MessageRow
  subscriptions : List SubscriptionRow
deriving DecidableEq, Repr

/-- `client.table("users").select(...).eq("id", uid).execute().data[0]`:
the first stored row with the given id, if any. -/
def findUser (db : DB) (uid : Nat) : Option UserRow :=
  (db.users.filter (fun r => r.id = uid)).head?

/-- Same lookup on the `personas` table. -/
def findPersona (db : DB) (pid : Nat) : Option PersonaRow :=
  (db.personas.filter (fun r => r.id = pid)).head?

/-- `client.table("users").update({...}).eq("id", uid)`: apply `f` to every
stored row whose id matches. -/
def updateUsers (db : DB) (uid : Nat) (f : UserRow → UserRow) : DB :=
  { db with users := db.users.map (fun r => if r.id = uid then f r else r) }

/-- Stable insertion (ascending by `created_at`) used to model the
store's `order("created_at", desc=False)`. -/
def insertOrdered : List MessageRow → MessageRow → List MessageRow
  | [], m => [m]
  | x :: xs, m =>
      if x.created_at ≤ m.created_at then x :: insertOrdered xs m
      else m :: x :: xs

/-- Stable ascending sort by `created_at` (ties keep insertion order). -/
def orderByCreatedAtAsc (ms : List MessageRow) : List MessageRow :=
  ms.foldl insertOrdered []

/-- Error taxonomy of the handlers under study (`HTTPException`s). -/
inductive ApiError
  | userNotFound
  | personaNotFound
  | insufficientCredits
  | planRestricted
deriving DecidableEq, Repr

/-! ## app/routers/chat.py -/

/-- `check_user_credits` (chat.py lines 63-81): premium plans always pass,
free users need a strictly positive balance. -/
def check_user_credits (db : DB) (user_id : Nat) : Except ApiError Bool :=
  match findUser db user_id with
  | none => .error .userNotFound
  | some u =>
      if u.plan = .monthly ∨ u.plan = .annual then .ok true
      else .ok (decide (u.credits_left > 0))

/-- `decrement_user_credits` (chat.py lines 84-111): no-op returning the
current balance for premium plans; otherwise persists and returns
`max 0 (credits_left - 1)`. -/
def decrement_user_credits (db : DB) (user_id : Nat) :
    Except ApiError (DB × Int) :=
  match findUser db user_id with
  | none => .error .userNotFound
  | some u =>
      if u.plan = .monthly ∨ u.plan = .annual then .ok (db, u.credits_left)
      else
        let new_credits : Int := max 0 (u.credits_left - 1)
        .ok (updateUsers db user_id (fun r => { r with credits_left := new_credits }),
             new_credits)

/-- `get_conversation_history` (chat.py lines 45-60): messages filtered by
conversation id and user id, ordered by `created_at` ascending, first
`limit` rows.  NOTE the parameter order `(conversation_id, user_id)`,
exactly as in the source signature. -/
def get_conversation_history (db : DB) (conversation_id : Nat)
    (user_id : Nat) (limit : Nat) : List MessageRow :=
  (orderByCreatedAtAsc
    (db.messages.filter
      (fun m => m.conversation_id = conversation_id ∧ m.user_id = user_id))).take limit

/-- Roles of the completion provider's chat messages. -/
inductive Role
  | system
  | user
  | assistant
deriving DecidableEq, Repr

/-- One entry of the prompt sent to the completion provider. -/
structure ChatMsg where
  role : Role
  content : String
deriving DecidableEq, Repr

/-- `OpenAIService.format_conversation_history`
(openai_production_service.py lines 89-130): system message from the
persona's prompt template, then the last 10 entries of the provided
history mapped to user/assistant roles, then the new user message. -/
def format_conversation_history (persona : PersonaRow) (user_message : String)
    (conversation_history : List MessageRow) : List ChatMsg :=
  [⟨Role.system, persona.prompt_template⟩]
    ++ (conversation_history.drop (conversation_history.length - 10)).map
        (fun m => ⟨if m.is_user then Role.user else Role.assistant, m.content⟩)
    ++ [⟨Role.user, user_message⟩]

/-- The request body of `POST /api/chat`. -/
structure ChatRequest where
  persona_id : Nat
  conversation_id : Option Nat
  message : String
deriving DecidableEq, Repr

/-- Fresh identifiers drawn by `uuid.uuid4()` during one chat turn. -/
structure FreshIds where
  convId : Nat
  userMsgId : Nat
  aiMsgId : Nat
deriving DecidableEq, Repr

/-- Store/ledger operations performed by the chat handler, in execution
order, so ordering claims can be stated on the trace. -/
inductive Event
  | creditCheck
  | insertConversation
  | updateConversationTimestamp
  | insertUserMessage
  | decrementLedger
  | insertAssistantPlaceholder
  | streamChunk (s : String)
  | finalizeAssistantMessage
deriving DecidableEq, Repr

/-- The observable outcome of an admitted chat turn: the operation trace,
the server-sent event lines yielded to the client, and the prompt handed
to the completion provider. -/
structure ChatOk where
  events : List Event
  sse : List String
  prompt : List ChatMsg
deriving DecidableEq, Repr

/-- `chat` (chat.py lines 114-218) with the streaming generator run to
completion.  `chunks` is the sequence of content fragments produced by the
completion provider; `now` the clock; `fresh` the drawn uuids.  The
returned `DB` is the store after the turn (or as of the raise on error).
Source order: credit check, persona fetch, conversation insert/update,
user-message insert, credit decrement, history fetch (arguments passed as
`get_conversation_history(user_id, conversation_id)` at line 179), then
the generator: placeholder insert, streaming with accumulation, final
content update. -/
def chat (db : DB) (user_id : Nat) (chat_request : ChatRequest)
    (fresh : FreshIds) (now : Nat) (chunks : List String) :
    DB × Except ApiError ChatOk :=
  match check_user_credits db user_id with
  | .error e => (db, .error e)
  | .ok has_credits =>
  if has_credits = false then (db, .error .insufficientCredits)
  else
  match findPersona db chat_request.persona_id with
  | none => (db, .error .personaNotFound)
  | some persona =>
  let step :=
    match chat_request.conversation_id with
    | none =>
        let title :=
          if chat_request.message.length > 30 then
            (chat_request.message.take 30) ++ "..."
          else chat_request.message
        let conv : ConversationRow :=
          { id := fresh.convId, user_id := user_id,
            persona_id := chat_request.persona_id, title := title,
            created_at := now, last_message_at := now }
        ({ db with conversations := db.conversations ++ [conv] },
         fresh.convId, Event.insertConversation)
    | some cid =>
        ({ db with conversations := (db.conversations.map
            (fun (c : ConversationRow) =>
              if c.id = cid then { c with last_message_at := now } else c)) },
         cid, Event.updateConversationTimestamp)
  let db1 := step.1
  let conversation_id := step.2.1
  let user_msg : MessageRow :=
    { id := fresh.userMsgId, user_id := user_id,
      persona_id := chat_request.persona_id,
      conversation_id := conversation_id,
      content := chat_request.message, is_user := true, created_at := now }
  let db2 := { db1 with messages := db1.messages ++ [user_msg] }
  match decrement_user_credits db2 user_id with
  | .error e => (db2, .error e)
  | .ok (db3, _) =>
  let history := get_conversation_history db3 user_id conversation_id 10
  let ai_msg : MessageRow :=
    { id := fresh.aiMsgId, user_id := user_id,
      persona_id := chat_request.persona_id,
      conversation_id := conversation_id,
      content := "", is_user := false, created_at := now }
  let db4 := { db3 with messages := db3.messages ++ [ai_msg] }
  let full_response := String.join chunks
  let db5 := { db4 with messages := (db4.messages.map
      (fun m => if m.id = fresh.aiMsgId then { m with content := full_response } else m)) }
  (db5, .ok
    { events := [Event.creditCheck, step.2.2, Event.insertUserMessage,
                 Event.decrementLedger, Event.insertAssistantPlaceholder]
                  ++ chunks.map Event.streamChunk
                  ++ [Event.finalizeAssistantMessage],
      sse := chunks.map (fun c => "data: " ++ c ++ "\n\n") ++ ["data: [DONE]\n\n"],
      prompt := format_conversation_history persona chat_request.message history })

/-- The message listing of `GET /api/conversations/{id}`
(conversations.py lines 144-151): messages of the conversation ordered by
`created_at` ascending, first `message_limit` rows. -/
def list_messages (db : DB) (conversation_id : Nat) (message_limit : Nat) :
    List MessageRow :=
  (orderByCreatedAtAsc
    (db.messages.filter (fun m => m.conversation_id = conversation_id))).take
    message_limit

/-! ## app/middleware/rate_limiting.py -/

/-- `REQUEST_HISTORY`: the in-memory per-identity timestamp store,
modelled as an association list (python dict, insertion ordered). -/
abbrev History := List (String × List Int)

/-- `REQUEST_HISTORY.get(user_id, [])`. -/
def historyGet (h : History) (uid : String) : List Int :=
  match (List.filter (fun p => p.1 = uid) h).head? with
  | some p => p.2
  | none => []

/-- `REQUEST_HISTORY[user_id] = v` (replace, or append a new key). -/
def historySet (h : History) (uid : String) (v : List Int) : History :=
  if (List.filter (fun p => p.1 = uid) h).isEmpty then h ++ [(uid, v)]
  else List.map (fun p => if p.1 = uid then (uid, v) else p) h

/-- Constructor default `rate_limit_per_minute = 60`. -/
def rate_limit_per_minute : Nat := 60

/-- `self.window_size = 60` (seconds). -/
def window_size : Int := 60

/-- Constructor default `rate_limited_paths = ["/api/"]`. -/
def rate_limited_paths : List String := ["/api/"]

/-- python's `s.startswith(p)`, modelled on the character lists. -/
def strStartsWith (s p : String) : Bool := p.data.isPrefixOf s.data

/-- `_should_rate_limit` (rate_limiting.py lines 33-35). -/
def should_rate_limit (path : String) : Bool :=
  rate_limited_paths.any (fun p => strStartsWith path p)

/-- `_is_rate_limited` (rate_limiting.py lines 37-51): purge timestamps
with `ts > now - window` kept, store the purged list back, report whether
the remaining count reaches the threshold. -/
def is_rate_limited (h : History) (uid : String) (now : Int) :
    History × Bool :=
  let recent := (historyGet h uid).filter (fun ts => ts > now - window_size)
  (historySet h uid recent, decide (recent.length ≥ rate_limit_per_minute))

/-- `_add_request` (rate_limiting.py lines 53-60). -/
def add_request (h : History) (uid : String) (now : Int) : History :=
  historySet h uid (historyGet h uid ++ [now])

/-- Identity derivation in `dispatch` (rate_limiting.py lines 68-78):
authenticated requests are keyed by the full Authorization header,
anonymous ones by `anon:<client host>`. -/
def limiterIdentity (authHeader : Option String) (clientHost : Option String) :
    String :=
  match authHeader with
  | none => "anon:" ++ clientHost.getD "unknown"
  | some a =>
      if strStartsWith a "Bearer " then a
      else "anon:" ++ clientHost.getD "unknown"

/-- Outcome of the middleware for one request. -/
inductive DispatchOutcome
  | passed
  | rateLimited (retryAfter : String)
deriving DecidableEq, Repr

/-- `dispatch` (rate_limiting.py lines 62-92): guarded paths are checked
against the window; on rejection the handler responds with a 429 carrying
`Retry-After = str(window_size)` and records nothing; otherwise the
current time is recorded and the request proceeds. -/
def dispatch (h : History) (path : String) (authHeader : Option String)
    (clientHost : Option String) (now : Int) : History × DispatchOutcome :=
  if ¬ should_rate_limit path then (h, .passed)
  else
    let uid := limiterIdentity authHeader clientHost
    let step := is_rate_limited h uid now
    if step.2 then (step.1, .rateLimited (toString window_size))
    else (add_request step.1 uid now, .passed)

/-! ## app/services/payment/paystack_service.py and
     app/routers/subscriptions.py -/

/-- `PLAN_CREDITS` (paystack_service.py lines 28-32). -/
def PLAN_CREDITS : PlanType → Int
  | .free => 5
  | .monthly => 100
  | .annual => 1200

/-- An inbound webhook payload: `event`, `data.reference`, and
`data.metadata.{user_id, plan}` (each possibly absent). -/
structure WebhookPayload where
  event : String
  reference : String
  meta_user_id : Option Nat
  meta_plan : Option String
deriving DecidableEq, Repr

/-- `PaystackService.create_subscription_from_webhook`
(paystack_service.py lines 195-244): `none` unless the event is
`charge.success` with both metadata keys present and the plan string a
valid `PlanType`; the subscription window is 30 days for `monthly` and
365 days otherwise. -/
def create_subscription_from_webhook (p : WebhookPayload) (now : Nat) :
    Option SubscriptionRow :=
  if p.event ≠ "charge.success" then none
  else
    match p.meta_user_id, p.meta_plan with
    | some uid, some plan_str =>
        match PlanType.ofString plan_str with
        | none => none
        | some plan =>
            let end_date := if plan = .monthly then now + 30 else now + 365
            some { user_id := uid, plan := plan, payment_id := p.reference,
                   status := .active, start_date := now, end_date := end_date }
    | _, _ => none

/-- The webhook endpoint's acknowledgment; `internalError` is what a
failing handler would return if it did not swallow exceptions. -/
inductive WebhookAck
  | statusSuccess
  | internalError
deriving DecidableEq, Repr

/-- `paystack_webhook` (subscriptions.py lines 67-112).  A `none` payload
models `request.json()` raising (malformed body): the except branch still
acknowledges success.  On a reconcilable payload the subscription row is
inserted and the user's plan and balance are overwritten with the plan's
credit grant. -/
def paystack_webhook (db : DB) (payload : Option WebhookPayload)
    (now : Nat) : DB × WebhookAck :=
  match payload with
  | none => (db, .statusSuccess)
  | some p =>
      match create_subscription_from_webhook p now with
      | none => (db, .statusSuccess)
      | some sub =>
          let db1 := { db with subscriptions := db.subscriptions ++ [sub] }
          let credits := PLAN_CREDITS sub.plan
          (updateUsers db1 sub.user_id
            (fun u => { u with plan := sub.plan, credits_left := credits }),
           .statusSuccess)

/-! ## app/routers/personas.py -/

/-- `list_personas` (personas.py lines 31-63).  The personas query
(line 54) is `select("*")` with **no ORDER BY**, so the store returns the
table's rows in an order of its own choosing; `personas_rows` is the row
order the store presents to this query (a permutation of the stored
rows).  Plan defaults to free when the user row is absent; free users
see only the first 3 returned personas, premium users all of them. -/
def list_personas (db : DB) (user_id : Nat)
    (personas_rows : List PersonaRow) : List PersonaRow :=
  let plan :=
    match findUser db user_id with
    | some u => u.plan
    | none => PlanType.free
  if plan = .free then personas_rows.take 3 else personas_rows

/-- `get_persona` route (personas.py lines 66-112): 404 when the persona
is missing (line 76, an id-filtered select).  For a free-plan user the
access check re-reads all persona ids (line 101, `select("id")`, again
with **no ORDER BY** — `persona_id_rows` is the row order the store
presents to this second, independent query) and requires the requested
id among the first 3, otherwise 402 (plan restricted).  When the user
row is absent the access check is skipped. -/
def get_persona_route (db : DB) (persona_id : Nat) (user_id : Nat)
    (persona_id_rows : List PersonaRow) : Except ApiError PersonaRow :=
  match findPersona db persona_id with
  | none => .error .personaNotFound
  | some persona =>
      match findUser db user_id with
      | none => .ok persona
      | some u =>
          if u.plan = .free then
            let persona_ids := persona_id_rows.map (fun p => p.id)
            if persona_id ∉ persona_ids.take 3 then .error .planRestricted
            else .ok persona
          else .ok persona

/-! ## Derived observations used to state claims -/

/-- Repeated application of `decrement_user_credits`, threading the
store; a raise stops the iteration. -/
def decrement_iter (uid : Nat) : DB → Nat → DB
  | db, 0 => db
  | db, n + 1 =>
      match decrement_user_credits db uid with
      | .ok x => decrement_iter uid x.1 n
      | .error _ => db

/-- The operation trace of a chat outcome (empty on a raise). -/
def eventsOf : Except ApiError ChatOk → List Event
  | .ok ok => ok.events
  | .error _ => []

/-- The provider prompt of a chat outcome (empty on a raise). -/
def promptOf : Except ApiError ChatOk → List ChatMsg
  | .ok ok => ok.prompt
  | .error _ => []

/-! ## Helper lemmas -/

/-- A per-id update that preserves ids commutes with the first-match
lookup. -/
theorem filter_head_map_ite (l : List UserRow) (uid : Nat)
    (f : UserRow → UserRow) (hf : ∀ r, (f r).id = r.id) :
    ((l.map (fun r => if r.id = uid then f r else r)).filter
        (fun r => r.id = uid)).head?
      = ((l.filter (fun r => r.id = uid)).head?).map f := by
  induction l with
  | nil => rfl
  | cons r rs ih =>
      by_cases h : r.id = uid
      · simp [List.filter_cons, h, hf r]
      · simp only [List.map_cons, List.filter_cons]
        simp [h, ih]

/-- `findUser` after `updateUsers` at the same id sees the updated row. -/
theorem findUser_updateUsers (db : DB) (uid : Nat) (f : UserRow → UserRow)
    (hf : ∀ r, (f r).id = r.id) :
    findUser (updateUsers db uid f) uid = (findUser db uid).map f := by
  unfold findUser updateUsers
  exact filter_head_map_ite db.users uid f hf

/-! ## Claims -/

/-- C1: For every user whose plan is free and whose credits_left is 0, a
POST /chat attempt fails with InsufficientCredits (payment-required), and
the user's stored plan and credits_left are unchanged by the attempt: the
credit check runs and rejects before any message, conversation, or ledger
write occurs (the returned store is exactly the input store). -/
theorem chat_free_zero_credits_rejected (db : DB) (user_id : Nat)
    (chat_request : ChatRequest) (fresh : FreshIds) (now : Nat)
    (chunks : List String) (u : UserRow)
    (hu : findUser db user_id = some u)
    (hplan : u.plan = .free) (hcredits : u.credits_left = 0) :
    chat db user_id chat_request fresh now chunks =
      (db, .error .insufficientCredits) := by
  have hc : check_user_credits db user_id = .ok false := by
    simp [check_user_credits, hu, hplan, hcredits]
  simp [chat, hc]

/-- Witness for C1 at a concrete store: one free user with zero
credits. -/
theorem chat_free_zero_credits_rejected_witness :
    chat ⟨[⟨1, .free, 0⟩], [⟨7, "n", "t"⟩], [], [], []⟩ 1 ⟨7, none, "hi"⟩
        ⟨100, 101, 102⟩ 0 [] =
      (⟨[⟨1, .free, 0⟩], [⟨7, "n", "t"⟩], [], [], []⟩,
       .error .insufficientCredits) :=
  chat_free_zero_credits_rejected _ 1 _ _ 0 [] ⟨1, .free, 0⟩ rfl rfl rfl

/-- Auxiliary for C2: iterating the ledger decrement on a free user whose
balance is 0 keeps the stored balance at exactly 0. -/
theorem decrement_iter_free_zero (uid : Nat) (n : Nat) :
    ∀ (db : DB) (u : UserRow),
      findUser db uid = some u → u.plan = .free → u.credits_left = 0 →
      ∃ u2, findUser (decrement_iter uid db n) uid = some u2 ∧
        u2.plan = .free ∧ u2.credits_left = 0 := by
  induction n with
  | zero => intro db u hu hplan hcred; exact ⟨u, hu, hplan, hcred⟩
  | succ n ih =>
      intro db u hu hplan hcred
      have hdec : decrement_user_credits db uid =
          .ok (updateUsers db uid (fun r => { r with credits_left := 0 }), 0) := by
        simp [decrement_user_credits, hu, hplan, hcred]
      have hfind :
          findUser (updateUsers db uid (fun r => { r with credits_left := 0 })) uid
            = some { u with credits_left := 0 } := by
        rw [findUser_updateUsers db uid (fun r => { r with credits_left := 0 })
              (fun r => rfl), hu]
        rfl
      have hstep : decrement_iter uid db (n + 1)
          = decrement_iter uid
              (updateUsers db uid (fun r => { r with credits_left := 0 })) n := by
        simp [decrement_iter, hdec]
      rw [hstep]
      exact ih _ { u with credits_left := 0 } hfind hplan rfl

/-- C2: For every user, decrement is a no-op that returns the current
balance when the plan is monthly or annual (no write is persisted);
otherwise it persists and returns max(0, balance-1).  In particular,
decrement applied any number of times to a free user with balance 0
leaves the balance 0 and never produces a negative balance. -/
theorem decrement_user_credits_spec (db : DB) (uid : Nat) (u : UserRow)
    (hu : findUser db uid = some u) :
    ((u.plan = .monthly ∨ u.plan = .annual) →
        decrement_user_credits db uid = .ok (db, u.credits_left)) ∧
    (u.plan = .free →
        decrement_user_credits db uid =
          .ok (updateUsers db uid
                (fun r => { r with credits_left := max 0 (u.credits_left - 1) }),
              max 0 (u.credits_left - 1)) ∧
        (0 : Int) ≤ max 0 (u.credits_left - 1)) ∧
    (u.plan = .free → u.credits_left = 0 → ∀ n, ∃ u2,
        findUser (decrement_iter uid db n) uid = some u2 ∧
        u2.plan = .free ∧ u2.credits_left = 0) := by
  refine ⟨?_, ?_, ?_⟩
  · intro hp
    simp only [decrement_user_credits, hu]
    rw [if_pos hp]
  · intro hf
    constructor
    · simp [decrement_user_credits, hu, hf]
    · exact le_max_left 0 _
  · intro hf h0 n
    exact decrement_iter_free_zero uid n db u hu hf h0

/-- Witness for C2 at a concrete store: three decrements on a free user
with balance 0 leave the stored balance at 0. -/
theorem decrement_user_credits_spec_witness :
    ∃ u2, findUser (decrement_iter 1 ⟨[⟨1, .free, 0⟩], [], [], [], []⟩ 3) 1
        = some u2 ∧ u2.plan = .free ∧ u2.credits_left = 0 :=
  ((decrement_user_credits_spec ⟨[⟨1, .free, 0⟩], [], [], [], []⟩ 1
      ⟨1, .free, 0⟩ rfl).2.2 rfl rfl) 3

/-- C3 (counterexample): the claim says the ledger decrement happens only
after the final assistant message is persisted; in the code the decrement
(chat.py line 176) precedes the streaming and the assistant-message
finalize.  On a concrete admitted chat turn, the decrement event occurs
strictly before the finalize event in the operation trace. -/
theorem chat_decrement_order_counterexample :
    Event.decrementLedger ∈
        eventsOf (chat ⟨[⟨1, .free, 5⟩], [⟨7, "n", "t"⟩], [], [], []⟩ 1
          ⟨7, none, "hello"⟩ ⟨100, 101, 102⟩ 0 ["Hi"]).2 ∧
    Event.finalizeAssistantMessage ∈
        eventsOf (chat ⟨[⟨1, .free, 5⟩], [⟨7, "n", "t"⟩], [], [], []⟩ 1
          ⟨7, none, "hello"⟩ ⟨100, 101, 102⟩ 0 ["Hi"]).2 ∧
    (eventsOf (chat ⟨[⟨1, .free, 5⟩], [⟨7, "n", "t"⟩], [], [], []⟩ 1
          ⟨7, none, "hello"⟩ ⟨100, 101, 102⟩ 0 ["Hi"]).2).indexOf
        Event.decrementLedger <
      (eventsOf (chat ⟨[⟨1, .free, 5⟩], [⟨7, "n", "t"⟩], [], [], []⟩ 1
          ⟨7, none, "hello"⟩ ⟨100, 101, 102⟩ 0 ["Hi"]).2).indexOf
        Event.finalizeAssistantMessage := by
  decide

/-- C3 (amended): for every admitted chat turn the operations occur in
this order: entitlement/credit check, then persist the user message
(ensuring the conversation exists), then decrement the ledger, then
stream tokens while accumulating (after inserting the empty assistant
placeholder), and only then persist the final assistant message. -/
theorem chat_event_order (db : DB) (user_id : Nat) (req : ChatRequest)
    (fresh : FreshIds) (now : Nat) (chunks : List String) (db2 : DB)
    (ok : ChatOk) (h : chat db user_id req fresh now chunks = (db2, .ok ok)) :
    ∃ convEvent, (convEvent = Event.insertConversation ∨
        convEvent = Event.updateConversationTimestamp) ∧
      ok.events = [Event.creditCheck, convEvent, Event.insertUserMessage,
          Event.decrementLedger, Event.insertAssistantPlaceholder]
        ++ chunks.map Event.streamChunk ++ [Event.finalizeAssistantMessage] := by
  obtain ⟨pid, cidOpt, msg⟩ := req
  cases hc : check_user_credits db user_id with
  | error e => simp [chat, hc] at h
  | ok b =>
    cases b with
    | false => simp [chat, hc] at h
    | true =>
      cases hp : findPersona db pid with
      | none => simp [chat, hc, hp] at h
      | some persona =>
        cases cidOpt with
        | none =>
            simp only [chat, hc, hp] at h
            split at h
            · simp at h
            · split at h
              · simp at h
              · simp only [Prod.mk.injEq, Except.ok.injEq] at h
                obtain ⟨-, hok⟩ := h
                subst hok
                exact ⟨Event.insertConversation, Or.inl rfl, rfl⟩
        | some cid =>
            simp only [chat, hc, hp] at h
            split at h
            · simp at h
            · split at h
              · simp at h
              · simp only [Prod.mk.injEq, Except.ok.injEq] at h
                obtain ⟨-, hok⟩ := h
                subst hok
                exact ⟨Event.updateConversationTimestamp, Or.inr rfl, rfl⟩

/-- Witness for the amended C3 at a concrete admitted turn. -/
theorem chat_event_order_witness :
    ∃ convEvent, (convEvent = Event.insertConversation ∨
        convEvent = Event.updateConversationTimestamp) ∧
      (ChatOk.mk
        [Event.creditCheck, Event.insertConversation, Event.insertUserMessage,
         Event.decrementLedger, Event.insertAssistantPlaceholder,
         Event.streamChunk "Hi", Event.finalizeAssistantMessage]
        ["data: Hi\n\n", "data: [DONE]\n\n"]
        [⟨Role.system, "t"⟩, ⟨Role.user, "hello"⟩]).events
        = [Event.creditCheck, convEvent, Event.insertUserMessage,
            Event.decrementLedger, Event.insertAssistantPlaceholder]
          ++ (["Hi"].map Event.streamChunk)
          ++ [Event.finalizeAssistantMessage] :=
  chat_event_order ⟨[⟨1, .free, 5⟩], [⟨7, "n", "t"⟩], [], [], []⟩ 1
    ⟨7, none, "hello"⟩ ⟨100, 101, 102⟩ 0 ["Hi"] _ _ (by rfl)

/-- C4 (code evaluated at the failing input): chat.py line 179 calls
`get_conversation_history(user_id, conversation_id)` although the
function signature is `(conversation_id, user_id, limit)`, so the history
query filters `conversation_id = user id` and `user_id = conversation id`
and matches nothing.  Concretely: conversation 100 of user 1 holds two
prior messages, yet the prompt built for the next turn contains no prior
message at all — only the persona's system instruction and the new user
message. -/
theorem chat_prompt_omits_history_at_failing_input :
    ((⟨[⟨1, .free, 5⟩], [⟨7, "n", "tpl"⟩], [⟨100, 1, 7, "t", 0, 0⟩],
        [⟨10, 1, 7, 100, "m1", true, 1⟩, ⟨11, 1, 7, 100, "a1", false, 2⟩],
        []⟩ : DB).messages.filter
        (fun m => m.conversation_id = 100 ∧ m.user_id = 1)).length = 2 ∧
    promptOf (chat ⟨[⟨1, .free, 5⟩], [⟨7, "n", "tpl"⟩],
        [⟨100, 1, 7, "t", 0, 0⟩],
        [⟨10, 1, 7, 100, "m1", true, 1⟩, ⟨11, 1, 7, 100, "a1", false, 2⟩],
        []⟩ 1 ⟨7, some 100, "next"⟩ ⟨200, 201, 202⟩ 5 ["ok"]).2 =
      [⟨Role.system, "tpl"⟩, ⟨Role.user, "next"⟩] := by
  decide

/-- A content update keyed on a message id leaves the conversation ids
unchanged, so rows of other conversations stay filtered out. -/
theorem filter_conv_map_content_update (l : List MessageRow) (cid aid : Nat)
    (full : String) (h : ∀ m ∈ l, m.conversation_id ≠ cid) :
    (l.map (fun m => if m.id = aid then { m with content := full } else m)).filter
      (fun m => m.conversation_id = cid) = [] := by
  induction l with
  | nil => rfl
  | cons x xs ih =>
      have hx := h x (List.mem_cons_self x xs)
      have hxs : ∀ m ∈ xs, m.conversation_id ≠ cid :=
        fun m hm => h m (List.mem_cons_of_mem x hm)
      by_cases hid : x.id = aid <;> simp [hid, hx, ih hxs]

/-- The ledger decrement never writes to the `messages` table. -/
theorem decrement_preserves_messages (db db3 : DB) (uid : Nat) (n : Int)
    (h : decrement_user_credits db uid = .ok (db3, n)) :
    db3.messages = db.messages := by
  unfold decrement_user_credits at h
  split at h
  · simp at h
  · split at h
    · simp only [Except.ok.injEq, Prod.mk.injEq] at h
      obtain ⟨h1, -⟩ := h
      rw [← h1]
    · simp only [Except.ok.injEq, Prod.mk.injEq] at h
      obtain ⟨h1, -⟩ := h
      rw [← h1]
      rfl

/-- C5 (counterexample): the claim quantifies over every completed chat
stream, but on a continuation turn the uniqueness fails.  Concretely:
conversation 100 already holds an assistant message whose content is
"Hi"; a further turn on that conversation streams to completion with
accumulated text `String.join ["Hi"]` — and the subsequent message
listing of the conversation then contains TWO messages with that content
and is_user = false (the old one and the freshly finalized placeholder),
not exactly one. -/
theorem stream_roundtrip_counterexample :
    Event.finalizeAssistantMessage ∈
      eventsOf (chat ⟨[⟨1, .free, 5⟩], [⟨7, "n", "t"⟩],
          [⟨100, 1, 7, "t0", 0, 1⟩], [⟨11, 1, 7, 100, "Hi", false, 1⟩], []⟩
        1 ⟨7, some 100, "again"⟩ ⟨200, 201, 202⟩ 2 ["Hi"]).2 ∧
    ((list_messages (chat ⟨[⟨1, .free, 5⟩], [⟨7, "n", "t"⟩],
          [⟨100, 1, 7, "t0", 0, 1⟩], [⟨11, 1, 7, 100, "Hi", false, 1⟩], []⟩
        1 ⟨7, some 100, "again"⟩ ⟨200, 201, 202⟩ 2 ["Hi"]).1 100 50).filter
        (fun m => m.content = String.join ["Hi"] ∧ m.is_user = false)).length
      = 2 := by
  refine ⟨by decide, by decide⟩

/-- C5 (amended): for every completed chat stream on a turn that creates
a new conversation (no conversation_id supplied, the drawn uuids fresh),
the content finally written to the assistant placeholder message equals
the concatenation of all streamed fragments, and a subsequent
listMessages on that conversation returns exactly one message with that
content and with is_user = false (namely the finalized placeholder).  On
continuation turns the uniqueness can fail: a prior assistant message may
already carry identical content, and once a conversation holds 50 or more
earlier messages the ascending limit-50 listing omits the new message
altogether. -/
theorem stream_roundtrip (db : DB) (user_id : Nat) (req : ChatRequest)
    (fresh : FreshIds) (now : Nat) (chunks : List String) (db2 : DB)
    (ok : ChatOk) (h : chat db user_id req fresh now chunks = (db2, .ok ok))
    (hnone : req.conversation_id = none)
    (hconv : ∀ m ∈ db.messages, m.conversation_id ≠ fresh.convId)
    (hids : fresh.userMsgId ≠ fresh.aiMsgId) :
    (list_messages db2 fresh.convId 50).filter (fun m => m.is_user = false) =
      [{ id := fresh.aiMsgId, user_id := user_id, persona_id := req.persona_id,
         conversation_id := fresh.convId, content := String.join chunks,
         is_user := false, created_at := now }] := by
  obtain ⟨pid, cidOpt, msg⟩ := req
  simp only at hnone
  subst hnone
  cases hc : check_user_credits db user_id with
  | error e => simp [chat, hc] at h
  | ok b =>
    cases b with
    | false => simp [chat, hc] at h
    | true =>
      cases hp : findPersona db pid with
      | none => simp [chat, hc, hp] at h
      | some persona =>
        simp only [chat, hc, hp] at h
        split at h
        · simp at h
        · split at h
          · simp at h
          · rename_i db3 snd heq
            have hmsg : db3.messages = db.messages ++
                [{ id := fresh.userMsgId, user_id := user_id, persona_id := pid,
                   conversation_id := fresh.convId, content := msg,
                   is_user := true, created_at := now }] :=
              (decrement_preserves_messages _ _ _ _ heq).trans rfl
            simp only [Prod.mk.injEq, Except.ok.injEq] at h
            obtain ⟨hdb2, hok⟩ := h
            subst hok
            rw [← hdb2]
            simp only [list_messages]
            rw [hmsg]
            simp only [List.map_append, List.filter_append]
            rw [filter_conv_map_content_update db.messages fresh.convId
                  fresh.aiMsgId (String.join chunks) hconv]
            simp [hids, orderByCreatedAtAsc, insertOrdered]

/-- Witness for C5 at a concrete admitted turn with two stream
fragments. -/
theorem stream_roundtrip_witness :
    (list_messages (chat ⟨[⟨1, .free, 5⟩], [⟨7, "n", "t"⟩], [], [], []⟩ 1
        ⟨7, none, "hi"⟩ ⟨100, 101, 102⟩ 0 ["He", "llo"]).1 100 50).filter
        (fun m => m.is_user = false) =
      [{ id := 102, user_id := 1, persona_id := 7, conversation_id := 100,
         content := String.join ["He", "llo"], is_user := false,
         created_at := 0 }] :=
  stream_roundtrip ⟨[⟨1, .free, 5⟩], [⟨7, "n", "t"⟩], [], [], []⟩ 1
    ⟨7, none, "hi"⟩ ⟨100, 101, 102⟩ 0 ["He", "llo"] _ _ (by rfl) rfl
    (by simp) (by decide)

/-- C7: Every inbound webhook payload is acknowledged with success, even
when internal processing fails (a `none` payload models a body whose
parsing raised); and for every payload whose event is not
"charge.success" or whose metadata lacks user_id or plan, the store is
untouched: no Subscription row is written and every user's plan and
balance are unchanged. -/
theorem webhook_always_acknowledges (db : DB)
    (payload : Option WebhookPayload) (now : Nat) :
    (paystack_webhook db payload now).2 = .statusSuccess ∧
    (∀ p, payload = some p →
      (p.event ≠ "charge.success" ∨ p.meta_user_id = none ∨
        p.meta_plan = none) →
      (paystack_webhook db payload now).1 = db) := by
  constructor
  · cases payload with
    | none => rfl
    | some p =>
        cases hs : create_subscription_from_webhook p now <;>
          simp [paystack_webhook, hs]
  · rintro p rfl hbad
    have hnone : create_subscription_from_webhook p now = none := by
      unfold create_subscription_from_webhook
      by_cases he : p.event ≠ "charge.success"
      · rw [if_pos he]
      · rw [if_neg he]
        rcases hbad with he2 | hu | hp2
        · exact absurd he2 he
        · rw [hu]
        · rw [hp2]
          cases p.meta_user_id <;> rfl
    simp [paystack_webhook, hnone]

/-- Witness for C7: a payload with a non-success event is acknowledged
and writes nothing. -/
theorem webhook_always_acknowledges_witness :
    (paystack_webhook ⟨[⟨1, .free, 0⟩], [], [], [], []⟩
        (some ⟨"charge.failed", "ref", some 1, some "monthly"⟩) 0).2 =
      .statusSuccess ∧
    (paystack_webhook ⟨[⟨1, .free, 0⟩], [], [], [], []⟩
        (some ⟨"charge.failed", "ref", some 1, some "monthly"⟩) 0).1 =
      ⟨[⟨1, .free, 0⟩], [], [], [], []⟩ :=
  ⟨(webhook_always_acknowledges ⟨[⟨1, .free, 0⟩], [], [], [], []⟩
      (some ⟨"charge.failed", "ref", some 1, some "monthly"⟩) 0).1,
   (webhook_always_acknowledges ⟨[⟨1, .free, 0⟩], [], [], [], []⟩
      (some ⟨"charge.failed", "ref", some 1, some "monthly"⟩) 0).2 _ rfl
     (Or.inl (by decide))⟩

/-- Replacing an existing key's value makes the first-match lookup see
the new value. -/
theorem historyGet_set_aux (uid : String) (v : List Int) :
    ∀ (h : History), (∃ q ∈ h, q.1 = uid) →
      ((h.map (fun p => if p.1 = uid then (uid, v) else p)).filter
        (fun p => p.1 = uid)).head? = some (uid, v) := by
  intro h
  induction h with
  | nil => rintro ⟨q, hq, -⟩; simp at hq
  | cons p t ih =>
      rintro ⟨q, hq, hquid⟩
      by_cases hp : p.1 = uid
      · simp [List.filter_cons, hp]
      · have hqt : q ∈ t := by
          rcases List.mem_cons.mp hq with h1 | h1
          · exact absurd (h1 ▸ hquid) hp
          · exact h1
        simp only [List.map_cons, List.filter_cons]
        rw [if_neg hp]
        simp only [decide_eq_false hp, Bool.false_eq_true, if_false]
        exact ih ⟨q, hqt, hquid⟩

/-- Reading back a key right after storing it returns the stored list. -/
theorem historyGet_historySet (h : History) (uid : String) (v : List Int) :
    historyGet (historySet h uid v) uid = v := by
  unfold historySet
  by_cases hin : (List.filter (fun p => p.1 = uid) h).isEmpty
  · rw [if_pos hin]
    have hf : List.filter (fun p => p.1 = uid) h = [] := by
      simpa using hin
    simp [historyGet, List.filter_append, hf]
  · rw [if_neg hin]
    have hne : List.filter (fun p => p.1 = uid) h ≠ [] := by
      simpa [List.isEmpty_iff] using hin
    obtain ⟨q, hq⟩ := List.exists_mem_of_ne_nil _ hne
    have hq2 := List.mem_filter.mp hq
    have hmem : ∃ r ∈ h, r.1 = uid :=
      ⟨q, hq2.1, of_decide_eq_true hq2.2⟩
    simp [historyGet, historyGet_set_aux uid v h hmem]

/-- C8: For every request to a rate-limited path and every identity, the
limiter first purges recorded timestamps outside the 60-second window
(keeping exactly those with `ts > now - 60`); if at least 60 timestamps
remain the request is rejected with a throttling signal carrying
retry-after = "60" and no new timestamp is recorded; otherwise the
current time is recorded and the request is admitted — in particular,
once every recorded timestamp of an identity is at least a full window
old, its next request is admitted. -/
theorem rate_limiter_spec (h : History) (path : String)
    (auth clientHost : Option String) (now : Int)
    (hguard : should_rate_limit path = true) :
    (let uid := limiterIdentity auth clientHost
     let recent := (historyGet h uid).filter (fun ts => ts > now - window_size)
     ((recent.length ≥ rate_limit_per_minute →
        dispatch h path auth clientHost now =
          (historySet h uid recent, .rateLimited "60")) ∧
      (recent.length < rate_limit_per_minute →
        dispatch h path auth clientHost now =
          (historySet (historySet h uid recent) uid (recent ++ [now]),
           .passed)) ∧
      ((∀ ts ∈ historyGet h uid, ts ≤ now - window_size) →
        dispatch h path auth clientHost now =
          (historySet (historySet h uid []) uid [now], .passed)))) := by
  dsimp only
  refine ⟨?_, ?_, ?_⟩
  · intro hge
    have ht : toString window_size = "60" := rfl
    simp [dispatch, hguard, is_rate_limited, add_request, hge, ht]
  · intro hlt
    simp [dispatch, hguard, is_rate_limited, add_request,
      Nat.not_le.mpr hlt, historyGet_historySet]
  · intro hold
    have hrec : (historyGet h (limiterIdentity auth clientHost)).filter
        (fun ts => ts > now - window_size) = [] := by
      rw [List.filter_eq_nil_iff]
      intro ts hts
      simpa using not_lt.mpr (hold ts hts)
    simp [dispatch, hguard, is_rate_limited, add_request, hrec,
      rate_limit_per_minute, historyGet_historySet]

/-- Witness for C8: an identity whose history is empty is admitted on a
guarded path and its request time is recorded. -/
theorem rate_limiter_spec_witness :
    dispatch [] "/api/chat" none none 100 =
      (historySet (historySet [] "anon:unknown" []) "anon:unknown" [100],
       .passed) :=
  ((rate_limiter_spec [] "/api/chat" none none 100 (by decide)).2.2
    (by intro ts hts; simp [historyGet] at hts))

/-- C9 (counterexample): neither personas query has an ORDER BY
(personas.py lines 54 and 101), so the store may present the two
independent queries different row orders.  With 5 stored personas,
under one presented order (the stored order) the free user's listing
contains persona 10, yet under another presented order of the very same
rows (the reversal) the single-persona access check rejects persona 10
with PlanRestricted: the claimed identical canonical ordering across the
two queries does not exist in the code. -/
theorem personas_ordering_counterexample :
    List.Perm
      [(⟨10, "a", "t1"⟩ : PersonaRow), ⟨11, "b", "t2"⟩, ⟨12, "c", "t3"⟩,
       ⟨13, "d", "t4"⟩, ⟨14, "e", "t5"⟩]
      (⟨[⟨1, .free, 0⟩],
        [⟨10, "a", "t1"⟩, ⟨11, "b", "t2"⟩, ⟨12, "c", "t3"⟩, ⟨13, "d", "t4"⟩,
         ⟨14, "e", "t5"⟩], [], [], []⟩ : DB).personas ∧
    List.Perm
      [(⟨14, "e", "t5"⟩ : PersonaRow), ⟨13, "d", "t4"⟩, ⟨12, "c", "t3"⟩,
       ⟨11, "b", "t2"⟩, ⟨10, "a", "t1"⟩]
      (⟨[⟨1, .free, 0⟩],
        [⟨10, "a", "t1"⟩, ⟨11, "b", "t2"⟩, ⟨12, "c", "t3"⟩, ⟨13, "d", "t4"⟩,
         ⟨14, "e", "t5"⟩], [], [], []⟩ : DB).personas ∧
    (⟨10, "a", "t1"⟩ : PersonaRow) ∈
      list_personas ⟨[⟨1, .free, 0⟩],
        [⟨10, "a", "t1"⟩, ⟨11, "b", "t2"⟩, ⟨12, "c", "t3"⟩, ⟨13, "d", "t4"⟩,
         ⟨14, "e", "t5"⟩], [], [], []⟩ 1
        [⟨10, "a", "t1"⟩, ⟨11, "b", "t2"⟩, ⟨12, "c", "t3"⟩, ⟨13, "d", "t4"⟩,
         ⟨14, "e", "t5"⟩] ∧
    get_persona_route ⟨[⟨1, .free, 0⟩],
        [⟨10, "a", "t1"⟩, ⟨11, "b", "t2"⟩, ⟨12, "c", "t3"⟩, ⟨13, "d", "t4"⟩,
         ⟨14, "e", "t5"⟩], [], [], []⟩ 10 1
        [⟨14, "e", "t5"⟩, ⟨13, "d", "t4"⟩, ⟨12, "c", "t3"⟩, ⟨11, "b", "t2"⟩,
         ⟨10, "a", "t1"⟩] =
      .error .planRestricted := by
  refine ⟨by decide, by decide, by decide, by rfl⟩

/-- C9 (amended): for every free-tier user, the listing returns exactly
the first 3 personas of the row order the store presents the personas
table for that query, and a request for an existing persona succeeds if
and only if its id is among the first 3 ids of the order presented to
that (separate, unordered) query — otherwise it fails with
PlanRestricted.  The two accesses agree exactly when the store happens to
present both queries the same order: the code itself fixes no canonical
order (neither query has an ORDER BY), so here the shared order is a
hypothesis, not a guarantee. -/
theorem personas_free_tier_spec (db : DB) (uid : Nat) (u : UserRow)
    (view : List PersonaRow)
    (hu : findUser db uid = some u) (hfree : u.plan = .free)
    (_hview : List.Perm view db.personas) :
    list_personas db uid view = view.take 3 ∧
    (∀ pid p, findPersona db pid = some p →
      get_persona_route db pid uid view =
        (if pid ∈ (view.map (fun q => q.id)).take 3 then .ok p
         else .error .planRestricted)) := by
  constructor
  · simp [list_personas, hu, hfree]
  · intro pid p hp
    simp only [get_persona_route, hp, hu, hfree]
    by_cases hmem : pid ∈ (view.map (fun q => q.id)).take 3
    · simp [hmem]
    · simp [hmem]

/-- Witness for the amended C9: a store with 5 personas, both queries
presented the stored order; the free user's listing is the first 3, and
persona #4 (id 13) is rejected with PlanRestricted. -/
theorem personas_free_tier_spec_witness :
    list_personas ⟨[⟨1, .free, 0⟩],
        [⟨10, "a", "t1"⟩, ⟨11, "b", "t2"⟩, ⟨12, "c", "t3"⟩, ⟨13, "d", "t4"⟩,
         ⟨14, "e", "t5"⟩], [], [], []⟩ 1
        [⟨10, "a", "t1"⟩, ⟨11, "b", "t2"⟩, ⟨12, "c", "t3"⟩, ⟨13, "d", "t4"⟩,
         ⟨14, "e", "t5"⟩] =
      [⟨10, "a", "t1"⟩, ⟨11, "b", "t2"⟩, ⟨12, "c", "t3"⟩] ∧
    get_persona_route ⟨[⟨1, .free, 0⟩],
        [⟨10, "a", "t1"⟩, ⟨11, "b", "t2"⟩, ⟨12, "c", "t3"⟩, ⟨13, "d", "t4"⟩,
         ⟨14, "e", "t5"⟩], [], [], []⟩ 13 1
        [⟨10, "a", "t1"⟩, ⟨11, "b", "t2"⟩, ⟨12, "c", "t3"⟩, ⟨13, "d", "t4"⟩,
         ⟨14, "e", "t5"⟩] =
      .error .planRestricted :=
  ⟨(personas_free_tier_spec ⟨[⟨1, .free, 0⟩],
      [⟨10, "a", "t1"⟩, ⟨11, "b", "t2"⟩, ⟨12, "c", "t3"⟩, ⟨13, "d", "t4"⟩,
       ⟨14, "e", "t5"⟩], [], [], []⟩ 1 ⟨1, .free, 0⟩
      [⟨10, "a", "t1"⟩, ⟨11, "b", "t2"⟩, ⟨12, "c", "t3"⟩, ⟨13, "d", "t4"⟩,
       ⟨14, "e", "t5"⟩] rfl rfl (List.Perm.refl _)).1.trans
    (by decide),
   ((personas_free_tier_spec ⟨[⟨1, .free, 0⟩],
      [⟨10, "a", "t1"⟩, ⟨11, "b", "t2"⟩, ⟨12, "c", "t3"⟩, ⟨13, "d", "t4"⟩,
       ⟨14, "e", "t5"⟩], [], [], []⟩ 1 ⟨1, .free, 0⟩
      [⟨10, "a", "t1"⟩, ⟨11, "b", "t2"⟩, ⟨12, "c", "t3"⟩, ⟨13, "d", "t4"⟩,
       ⟨14, "e", "t5"⟩] rfl rfl (List.Perm.refl _)).2 13
      ⟨13, "d", "t4"⟩ rfl).trans (by rfl)⟩

end AiMentor
